import Mathlib

/-!
Verification of the data layer of the ease-car-server repository:
the entity models and their save methods (src/core/api/models.py) and the
schema migration (src/api/migrations/0010_alter_rental_created_at_alter_review_created_at_and_more.py).

Modelling conventions of the shallow embedding:
* machine words of the hash computation are Nat reduced modulo 2^32 where
  the Python integers would be truncated;
* timestamps are abstract Nat clock readings; the value of timezone.now()
  at the moment of a save is an explicit `now` parameter;
* the random bytes consumed by uuid.uuid4() (os.urandom) are an explicit
  byte-list parameter `rnd`;
* foreign keys (ProfileUser, Address, Brand, Car, Rental) are Nat row ids;
* DecimalField values are fixed-point integers, ImageField values are the
  stored path strings.
-/

namespace EaseCar

/-! ## Python hashlib.sha256, as used by Payment.save:
`hashlib.sha256(uuid.uuid4().bytes).hexdigest()`.
Messages are lists of bytes (Nat below 256; inputs are reduced mod 256). -/

/-- Reduce a Nat to a 32-bit machine word. -/
def w32 (n : Nat) : Nat := n % 4294967296

/-- 32-bit right rotation of a word. -/
def rotr (n x : Nat) : Nat := w32 ((x >>> n) ||| (x <<< (32 - n)))

/-- The 64 SHA-256 round constants of FIPS 180-4, in decimal. -/
def sha256K : List Nat :=
  [1116352408, 1899447441, 3049323471, 3921009573, 961987163, 1508970993,
   2453635748, 2870763221, 3624381080, 310598401, 607225278, 1426881987,
   1925078388, 2162078206, 2614888103, 3248222580, 3835390401, 4022224774,
   264347078, 604807628, 770255983, 1249150122, 1555081692, 1996064986,
   2554220882, 2821834349, 2952996808, 3210313671, 3336571891, 3584528711,
   113926993, 338241895, 666307205, 773529912, 1294757372, 1396182291,
   1695183700, 1986661051, 2177026350, 2456956037, 2730485921, 2820302411,
   3259730800, 3345764771, 3516065817, 3600352804, 4094571909, 275423344,
   430227734, 506948616, 659060556, 883997877, 958139571, 1322822218,
   1537002063, 1747873779, 1955562222, 2024104815, 2227730452, 2361852424,
   2428436474, 2756734187, 3204031479, 3329325298]

/-- Four big-endian bytes packed into one 32-bit word. -/
def beWord (b0 b1 b2 b3 : Nat) : Nat :=
  ((b0 % 256) <<< 24) ||| ((b1 % 256) <<< 16) ||| ((b2 % 256) <<< 8) ||| (b3 % 256)

/-- The 64-word message schedule of one 64-byte block. -/
def msgSchedule (block : List Nat) : Array Nat :=
  let w0 : Array Nat := (Array.range 16).map (fun i =>
    beWord (block.getD (4 * i) 0) (block.getD (4 * i + 1) 0)
      (block.getD (4 * i + 2) 0) (block.getD (4 * i + 3) 0))
  (List.range 48).foldl (fun w j =>
    let i := j + 16
    let x := w.getD (i - 15) 0
    let y := w.getD (i - 2) 0
    let s0 := (rotr 7 x) ^^^ (rotr 18 x) ^^^ (x >>> 3)
    let s1 := (rotr 17 y) ^^^ (rotr 19 y) ^^^ (y >>> 10)
    w.push (w32 ((w.getD (i - 16) 0) + s0 + (w.getD (i - 7) 0) + s1))) w0

/-- The eight 32-bit words of a SHA-256 state (and of the final digest). -/
structure Hash8 where
  a : Nat
  b : Nat
  c : Nat
  d : Nat
  e : Nat
  f : Nat
  g : Nat
  h : Nat
deriving DecidableEq, Repr

/-- The SHA-256 initial state of FIPS 180-4, in decimal. -/
def sha256init : Hash8 :=
  ⟨1779033703, 3144134277, 1013904242, 2773480762,
   1359893119, 2600822924, 528734635, 1541459225⟩

/-- One SHA-256 compression round. -/
def sha256Round (st : Hash8) (ki wi : Nat) : Hash8 :=
  let S1 := (rotr 6 st.e) ^^^ (rotr 11 st.e) ^^^ (rotr 25 st.e)
  let ch := (st.e &&& st.f) ^^^ ((st.e ^^^ 4294967295) &&& st.g)
  let temp1 := w32 (st.h + S1 + ch + ki + wi)
  let S0 := (rotr 2 st.a) ^^^ (rotr 13 st.a) ^^^ (rotr 22 st.a)
  let maj := (st.a &&& st.b) ^^^ (st.a &&& st.c) ^^^ (st.b &&& st.c)
  let temp2 := w32 (S0 + maj)
  ⟨w32 (temp1 + temp2), st.a, st.b, st.c, w32 (st.d + temp1), st.e, st.f, st.g⟩

/-- Compress one 64-byte block into the running state. -/
def sha256Block (hh : Hash8) (block : List Nat) : Hash8 :=
  let w := msgSchedule block
  let st := (List.range 64).foldl
    (fun st i => sha256Round st (sha256K.getD i 0) (w.getD i 0)) hh
  ⟨w32 (hh.a + st.a), w32 (hh.b + st.b), w32 (hh.c + st.c), w32 (hh.d + st.d),
   w32 (hh.e + st.e), w32 (hh.f + st.f), w32 (hh.g + st.g), w32 (hh.h + st.h)⟩

/-- A 64-bit length, as eight big-endian bytes. -/
def lenBytes8 (n : Nat) : List Nat :=
  [(n >>> 56) % 256, (n >>> 48) % 256, (n >>> 40) % 256, (n >>> 32) % 256,
   (n >>> 24) % 256, (n >>> 16) % 256, (n >>> 8) % 256, n % 256]

/-- SHA-256 padding: a 0x80 byte, zeros up to 56 mod 64, then the bit length. -/
def sha256Pad (msg : List Nat) : List Nat :=
  let L := msg.length
  let zeros := (119 - L % 64) % 64
  msg ++ [0x80] ++ List.replicate zeros 0 ++ lenBytes8 (8 * L)

/-- The SHA-256 digest of a byte list, as eight 32-bit words. -/
def sha256 (msg : List Nat) : Hash8 :=
  let padded := sha256Pad msg
  (List.range (padded.length / 64)).foldl
    (fun hh i => sha256Block hh ((padded.drop (64 * i)).take 64)) sha256init

/-- The sixteen lowercase hex digits. -/
def hexChars : List Char := "0123456789abcdef".data

/-- The hex digit of a nibble. -/
def hexDigit (n : Nat) : Char := hexChars.getD (n % 16) '0'

/-- A 32-bit word as eight hex characters, most significant nibble first. -/
def wordHex (w : Nat) : List Char :=
  [hexDigit (w >>> 28), hexDigit (w >>> 24), hexDigit (w >>> 20), hexDigit (w >>> 16),
   hexDigit (w >>> 12), hexDigit (w >>> 8), hexDigit (w >>> 4), hexDigit w]

/-- Python .hexdigest(): the digest words in order, each as 8 hex characters. -/
def hexdigest (hh : Hash8) : String :=
  ⟨wordHex hh.a ++ wordHex hh.b ++ wordHex hh.c ++ wordHex hh.d ++
   wordHex hh.e ++ wordHex hh.f ++ wordHex hh.g ++ wordHex hh.h⟩

/-- hashlib.sha256(msg).hexdigest(). -/
def sha256hex (msg : List Nat) : String := hexdigest (sha256 msg)

/-- Python uuid.uuid4(): sixteen random bytes (os.urandom(16)) with the
version nibble of byte 6 forced to 4 and the variant bits of byte 8 forced
to 10; .bytes returns exactly these sixteen bytes. The random source is the
parameter rnd. -/
def uuid4bytes (rnd : List Nat) : List Nat :=
  (List.range 16).map (fun i =>
    let b := (rnd.getD i 0) % 256
    if i = 6 then (b &&& 15) ||| 64
    else if i = 8 then (b &&& 63) ||| 128
    else b)

/-! ## The entity models of src/core/api/models.py -/

/-- Car.FuelTypes (models.TextChoices). -/
inductive FuelTypes where
  | GASOLINE
  | DIESEL
  | PROPANE
  | CNG
  | ETHANOL
  | BIODIESEL
deriving DecidableEq, Repr

/-- Rental.RentType (models.TextChoices). -/
inductive RentType where
  | DAILY
  | WEEKLY
  | MONTHLY
  | YEARLY
deriving DecidableEq, Repr

/-- Payment.Type (models.TextChoices); named PaymentType because Type is a
reserved word in Lean. -/
inductive PaymentType where
  | CREDIT_CARD
  | DEBIT_CARD
  | CASH
deriving DecidableEq, Repr

/-- Payment.Status (models.TextChoices). -/
inductive PaymentStatus where
  | PENDING
  | COMPLETED
  | CANCELLED
  | FAILED
deriving DecidableEq, Repr

/-- Brand: implicit auto id primary key, name, image. -/
structure Brand where
  id : Nat
  name : String
  image : String
deriving DecidableEq, Repr

/-- Car: implicit auto id, fields in source order; brand is the Brand
foreign key (on_delete=CASCADE); acceleration_0_100 is a DecimalField
held as a fixed-point integer of hundredths. -/
structure Car where
  id : Nat
  name : String
  image : String
  brand : Nat
  passengers : Int
  doors : Int
  has_air_conditioning : Bool
  has_power_locks : Bool
  has_power_windows : Bool
  fuel_type : FuelTypes
  is_automatic : Bool
  horsepower : Int
  top_speed : Int
  acceleration_0_100 : Int
  model_year : Int
deriving DecidableEq, Repr

/-- Rental: owner and car are foreign keys (on_delete=CASCADE); rent_value
is a DecimalField held as a fixed-point integer of hundredths. -/
structure Rental where
  id : Nat
  owner : Nat
  car : Nat
  rent_type : RentType
  rent_value : Int
  created_at : Nat
  updated_at : Nat
deriving DecidableEq, Repr

/-- Review: reviewer and rental are foreign keys (on_delete=CASCADE);
stars is a DecimalField held as a fixed-point integer of tenths. -/
structure Review where
  id : Nat
  reviewer : Nat
  rental : Nat
  stars : Int
  comment : String
  created_at : Nat
  updated_at : Nat
deriving DecidableEq, Repr

/-- Favorite: owner and rental are foreign keys (on_delete=CASCADE). -/
structure Favorite where
  id : Nat
  owner : Nat
  rental : Nat
  created_at : Nat
  updated_at : Nat
deriving DecidableEq, Repr

/-- Payment: payment_hash is the primary key (no auto id); owner and
receiver are ProfileUser foreign keys; amount is a DecimalField held as a
fixed-point integer of hundredths. -/
structure Payment where
  owner : Nat
  receiver : Nat
  payment_type : PaymentType
  payment_hash : String
  payment_status : PaymentStatus
  amount : Int
  description : String
  bill_date : Nat
  created_at : Nat
  updated_at : Nat
deriving DecidableEq, Repr

/-- Booking: renter, rental and location are foreign keys
(on_delete=CASCADE); payments is a ManyToManyField to Payment, held as the
list of related payment_hash keys. -/
structure Booking where
  id : Nat
  renter : Nat
  rental : Nat
  location : Nat
  rent_date : Nat
  return_date : Nat
  payments : List String
  created_at : Nat
  updated_at : Nat
deriving DecidableEq, Repr

/-- Options of the CharField declaration of Payment.payment_hash:
primary_key=True, max_length=100, editable=False. -/
structure CharFieldOptions where
  primary_key : Bool
  max_length : Nat
  editable : Bool
deriving DecidableEq, Repr

/-- Payment.payment_hash = models.CharField(primary_key=True,
max_length=100, editable=False). -/
def Payment.payment_hash_options : CharFieldOptions := ⟨true, 100, false⟩

/-! ## The save methods. Each Python method mutates the instance and calls
super().save(); the embedding returns the mutated instance, with the value
of timezone.now() passed as `now` and, for Payment, the random bytes of
uuid.uuid4() passed as `rnd`. -/

/-- Rental.save: self.updated_at = timezone.now(). -/
def Rental.save (r : Rental) (now : Nat) : Rental :=
  { r with updated_at := now }

/-- Review.save: self.updated_at = timezone.now(). -/
def Review.save (v : Review) (now : Nat) : Review :=
  { v with updated_at := now }

/-- Favorite.save: self.updated_at = timezone.now(). -/
def Favorite.save (f : Favorite) (now : Nat) : Favorite :=
  { f with updated_at := now }

/-- Payment.save: if not self.payment_hash, set it to
hashlib.sha256(uuid.uuid4().bytes).hexdigest(); then
self.updated_at = timezone.now(). An unset CharField is the empty string,
which is falsy in Python. -/
def Payment.save (p : Payment) (rnd : List Nat) (now : Nat) : Payment :=
  let p1 := if p.payment_hash = ""
    then { p with payment_hash := sha256hex (uuid4bytes rnd) }
    else p
  { p1 with updated_at := now }

/-- Booking.save: self.updated_at = timezone.now(). -/
def Booking.save (bk : Booking) (now : Nat) : Booking :=
  { bk with updated_at := now }

/-- A sequence of saves of one Payment instance: each element of ops is
the pair of the uuid4 random bytes and the timezone.now() value of that
save. -/
def Payment.saveSeq (p : Payment) (ops : List (List Nat × Nat)) : Payment :=
  ops.foldl (fun q op => q.save op.1 op.2) p

/-! ## The relational state and Django on_delete=CASCADE semantics -/

/-- The rows of the tables the cascade claims range over. -/
structure DB where
  brands : List Brand
  cars : List Car
  rentals : List Rental
  reviews : List Review
  favorites : List Favorite
  bookings : List Booking
deriving Repr

/-- Deleting a Rental row: Review.rental, Favorite.rental and
Booking.rental all declare on_delete=models.CASCADE, so every row
referencing the deleted rental is deleted with it. -/
def deleteRental (db : DB) (r : Nat) : DB :=
  { db with
    rentals := db.rentals.filter (fun x => x.id != r)
    reviews := db.reviews.filter (fun x => x.rental != r)
    favorites := db.favorites.filter (fun x => x.rental != r)
    bookings := db.bookings.filter (fun x => x.rental != r) }

/-- The ids of the Cars deleted with Brand b (Car.brand has
on_delete=CASCADE). -/
def deadCars (db : DB) (b : Nat) : List Nat :=
  (db.cars.filter (fun c => c.brand == b)).map (fun c => c.id)

/-- The ids of the Rentals deleted with Brand b, via their deleted Car
(Rental.car has on_delete=CASCADE). -/
def deadRentals (db : DB) (b : Nat) : List Nat :=
  (db.rentals.filter (fun r => (deadCars db b).contains r.car)).map (fun r => r.id)

/-- Deleting a Brand row: the CASCADE chain Brand -> Car -> Rental ->
Review / Favorite / Booking. -/
def deleteBrand (db : DB) (b : Nat) : DB :=
  { brands := db.brands.filter (fun x => x.id != b)
    cars := db.cars.filter (fun c => c.brand != b)
    rentals := db.rentals.filter (fun r => !((deadCars db b).contains r.car))
    reviews := db.reviews.filter (fun v => !((deadRentals db b).contains v.rental))
    favorites := db.favorites.filter (fun v => !((deadRentals db b).contains v.rental))
    bookings := db.bookings.filter (fun v => !((deadRentals db b).contains v.rental)) }

/-! ## Favorite.__str__ -/

/-- Outcome of evaluating a Python expression that may raise. -/
inductive PyStr where
  | ok (s : String)
  | attrError (name : String)
deriving DecidableEq, Repr

/-- Attribute lookup on a Favorite instance: the Django-generated id plus
the four fields declared in the class body (owner, rental, created_at,
updated_at). No attribute named user exists; looking one up is none,
which in Python raises AttributeError. -/
def Favorite.getattr (f : Favorite) (name : String) : Option String :=
  if name = "id" then some (toString f.id)
  else if name = "owner" then some (toString f.owner)
  else if name = "rental" then some (toString f.rental)
  else if name = "created_at" then some (toString f.created_at)
  else if name = "updated_at" then some (toString f.updated_at)
  else none

/-- Favorite.__str__ returns the f-string interpolating self.user and
self.rental; evaluation reads the two attributes left to right. -/
def Favorite.__str__ (f : Favorite) : PyStr :=
  match f.getattr "user" with
  | none => .attrError "user"
  | some u =>
    match f.getattr "rental" with
    | none => .attrError "rental"
    | some r => .ok (u ++ " [" ++ r ++ "]")

/-! ## The migration src/api/migrations/0010_... -/

/-- The default= option of an altered field. -/
inductive FieldDefaultValue where
  | timezone_now
deriving DecidableEq, Repr

/-- A schema-migration operation; the migration file only contains
migrations.AlterField entries. -/
inductive MigrationOperation where
  | alterField (model_name : String) (fieldName : String)
      (fieldType : String) (fieldDefault : FieldDefaultValue)
deriving DecidableEq, Repr

/-- Migration.operations of migration 0010: AlterField(model_name=rental,
name=created_at, field=models.DateTimeField(default=django.utils.timezone.now))
and the same for review. -/
def migration0010_operations : List MigrationOperation :=
  [.alterField "rental" "created_at" "DateTimeField" .timezone_now,
   .alterField "review" "created_at" "DateTimeField" .timezone_now]

/-! ## Helper lemmas about the hex digest -/

/-- A hex digit is always one of the sixteen hex characters. -/
theorem hexDigit_mem (n : Nat) : hexDigit n ∈ hexChars := by
  have h : ∀ m, m < 16 → hexChars.getD m '0' ∈ hexChars := by decide
  exact h (n % 16) (Nat.mod_lt n (by decide))

/-- Every character printed for a word is a hex character. -/
theorem wordHex_mem (w : Nat) : ∀ c ∈ wordHex w, c ∈ hexChars := by
  intro c hc
  simp only [wordHex, List.mem_cons, List.not_mem_nil, or_false] at hc
  rcases hc with rfl | rfl | rfl | rfl | rfl | rfl | rfl | rfl <;> exact hexDigit_mem _

/-- A hex digest prints 64 characters. -/
theorem sha256hex_length (msg : List Nat) : (sha256hex msg).length = 64 := rfl

/-- Every character of a hex digest is a hex character. -/
theorem sha256hex_mem_hex (msg : List Nat) :
    ∀ c ∈ (sha256hex msg).data, c ∈ hexChars := by
  intro c hc
  have hc2 : c ∈ wordHex (sha256 msg).a ++ wordHex (sha256 msg).b ++
      wordHex (sha256 msg).c ++ wordHex (sha256 msg).d ++ wordHex (sha256 msg).e ++
      wordHex (sha256 msg).f ++ wordHex (sha256 msg).g ++ wordHex (sha256 msg).h := hc
  simp only [List.mem_append] at hc2
  rcases hc2 with ((((((h | h) | h) | h) | h) | h) | h) | h <;> exact wordHex_mem _ _ h

/-- A hex digest is never the empty string. -/
theorem sha256hex_ne_empty (msg : List Nat) : sha256hex msg ≠ "" := by
  intro h
  have h2 : (sha256hex msg).length = 0 := by rw [h]; rfl
  rw [sha256hex_length] at h2
  exact absurd h2 (by decide)

/-- Saving a Payment always leaves a non-empty payment_hash behind. -/
theorem payment_save_hash_nonempty (p : Payment) (rnd : List Nat) (now : Nat) :
    (p.save rnd now).payment_hash ≠ "" := by
  by_cases h : p.payment_hash = ""
  · have he : (p.save rnd now).payment_hash = sha256hex (uuid4bytes rnd) := by
      simp [Payment.save, h]
    rw [he]; exact sha256hex_ne_empty _
  · have he : (p.save rnd now).payment_hash = p.payment_hash := by
      simp [Payment.save, h]
    rw [he]; exact h

/-- C1: a Payment whose payment_hash is empty gets, on save, the SHA-256
hex digest of the bytes of a freshly generated random UUID: a string of 64
hexadecimal characters. -/
theorem payment_save_sets_fresh_hash (p : Payment) (rnd : List Nat) (now : Nat)
    (h : p.payment_hash = "") :
    (p.save rnd now).payment_hash = sha256hex (uuid4bytes rnd) ∧
    (p.save rnd now).payment_hash.length = 64 ∧
    ∀ c ∈ ((p.save rnd now).payment_hash).data, c ∈ hexChars := by
  have hsave : (p.save rnd now).payment_hash = sha256hex (uuid4bytes rnd) := by
    simp [Payment.save, h]
  refine ⟨hsave, ?_, ?_⟩
  · rw [hsave]; exact sha256hex_length _
  · rw [hsave]; exact sha256hex_mem_hex _

/-- Witness for C1 at a concrete empty-hash Payment. -/
theorem payment_save_sets_fresh_hash_witness :
    ((Payment.mk 1 2 .CASH "" .PENDING 100 "" 3 4 5).save [] 9).payment_hash =
      sha256hex (uuid4bytes []) ∧
    ((Payment.mk 1 2 .CASH "" .PENDING 100 "" 3 4 5).save [] 9).payment_hash.length = 64 ∧
    ∀ c ∈ (((Payment.mk 1 2 .CASH "" .PENDING 100 "" 3 4 5).save [] 9).payment_hash).data,
      c ∈ hexChars :=
  payment_save_sets_fresh_hash (Payment.mk 1 2 .CASH "" .PENDING 100 "" 3 4 5) [] 9 rfl

/-- C2: saving a Payment whose hash is already set leaves the hash
unchanged, and over any sequence of saves the hash is generated at most
once: after the first save it never changes again. -/
theorem payment_hash_generated_at_most_once (p : Payment) (rnd : List Nat) (now : Nat)
    (h : p.payment_hash ≠ "") :
    (p.save rnd now).payment_hash = p.payment_hash ∧
    ∀ (q : Payment) (r0 : List Nat) (n0 : Nat) (ops : List (List Nat × Nat)),
      ((q.save r0 n0).saveSeq ops).payment_hash = (q.save r0 n0).payment_hash := by
  constructor
  · simp [Payment.save, h]
  · intro q r0 n0 ops
    have key : ∀ (l : List (List Nat × Nat)) (x : Payment), x.payment_hash ≠ "" →
        (x.saveSeq l).payment_hash = x.payment_hash := by
      intro l
      induction l with
      | nil => intro x _; rfl
      | cons op rest ih =>
        intro x hx
        have hstep : (x.save op.1 op.2).payment_hash = x.payment_hash := by
          simp [Payment.save, hx]
        show ((x.save op.1 op.2).saveSeq rest).payment_hash = x.payment_hash
        rw [ih _ (by rw [hstep]; exact hx), hstep]
    exact key ops _ (payment_save_hash_nonempty q r0 n0)

/-- Witness for C2 at a concrete set-hash Payment and a concrete sequence
of two further saves after a first save. -/
theorem payment_hash_generated_at_most_once_witness :
    ((Payment.mk 1 2 .CASH "aa" .PENDING 100 "" 3 4 5).save [7] 9).payment_hash = "aa" ∧
    (((Payment.mk 3 4 .DEBIT_CARD "" .FAILED 7 "d" 1 1 1).save [] 1).saveSeq
        [([2], 3), ([4], 5)]).payment_hash =
      ((Payment.mk 3 4 .DEBIT_CARD "" .FAILED 7 "d" 1 1 1).save [] 1).payment_hash := by
  have h := payment_hash_generated_at_most_once
    (Payment.mk 1 2 .CASH "aa" .PENDING 100 "" 3 4 5) [7] 9 (by decide)
  exact ⟨h.1, h.2 (Payment.mk 3 4 .DEBIT_CARD "" .FAILED 7 "d" 1 1 1) [] 1 [([2], 3), ([4], 5)]⟩

/-- C7: payment_hash is declared as the primary key, and the hash written
on first save is the SHA-256 hex digest of the fresh UUID bytes alone:
two Payments with different data get the same hash from the same random
bytes, so the hash derives from no payment data. -/
theorem payment_pk_is_uuid_sha256 (p q : Payment) (rnd : List Nat) (now : Nat)
    (hp : p.payment_hash = "") (hq : q.payment_hash = "") :
    Payment.payment_hash_options.primary_key = true ∧
    (p.save rnd now).payment_hash = sha256hex (uuid4bytes rnd) ∧
    (p.save rnd now).payment_hash = (q.save rnd now).payment_hash := by
  have h1 : (p.save rnd now).payment_hash = sha256hex (uuid4bytes rnd) := by
    simp [Payment.save, hp]
  have h2 : (q.save rnd now).payment_hash = sha256hex (uuid4bytes rnd) := by
    simp [Payment.save, hq]
  exact ⟨rfl, h1, h1.trans h2.symm⟩

/-- Witness for C7 at two concrete Payments that differ in every data
field but share the random bytes. -/
theorem payment_pk_is_uuid_sha256_witness :
    Payment.payment_hash_options.primary_key = true ∧
    ((Payment.mk 1 2 .CASH "" .PENDING 100 "x" 3 4 5).save [1, 2, 3] 9).payment_hash =
      sha256hex (uuid4bytes [1, 2, 3]) ∧
    ((Payment.mk 1 2 .CASH "" .PENDING 100 "x" 3 4 5).save [1, 2, 3] 9).payment_hash =
      ((Payment.mk 7 8 .CREDIT_CARD "" .COMPLETED 0 "y" 9 9 9).save [1, 2, 3] 9).payment_hash :=
  payment_pk_is_uuid_sha256 (Payment.mk 1 2 .CASH "" .PENDING 100 "x" 3 4 5)
    (Payment.mk 7 8 .CREDIT_CARD "" .COMPLETED 0 "y" 9 9 9) [1, 2, 3] 9 rfl rfl

/-- C3: every save of a Rental, Review, Favorite, Payment or Booking
unconditionally writes the current time `now` into updated_at. -/
theorem saves_set_updated_at (now : Nat) (r : Rental) (v : Review) (f : Favorite)
    (p : Payment) (rnd : List Nat) (bk : Booking) :
    (r.save now).updated_at = now ∧ (v.save now).updated_at = now ∧
    (f.save now).updated_at = now ∧ (p.save rnd now).updated_at = now ∧
    (bk.save now).updated_at = now :=
  ⟨rfl, rfl, rfl, rfl, rfl⟩

/-- C4: under a monotone non-decreasing clock (the previous updated_at is
at most the save time now), saving moves updated_at forward. -/
theorem saves_monotone_updated_at (now : Nat) (r : Rental) (v : Review) (f : Favorite)
    (p : Payment) (rnd : List Nat) (bk : Booking)
    (hr : r.updated_at ≤ now) (hv : v.updated_at ≤ now) (hf : f.updated_at ≤ now)
    (hp : p.updated_at ≤ now) (hb : bk.updated_at ≤ now) :
    r.updated_at ≤ (r.save now).updated_at ∧
    v.updated_at ≤ (v.save now).updated_at ∧
    f.updated_at ≤ (f.save now).updated_at ∧
    p.updated_at ≤ (p.save rnd now).updated_at ∧
    bk.updated_at ≤ (bk.save now).updated_at :=
  ⟨hr, hv, hf, hp, hb⟩

/-- Witness for C4 at one concrete record of each entity, saved at time 9. -/
theorem saves_monotone_updated_at_witness :
    (Rental.mk 1 2 3 .WEEKLY 100 4 5).updated_at ≤
      ((Rental.mk 1 2 3 .WEEKLY 100 4 5).save 9).updated_at ∧
    (Review.mk 1 2 3 45 "c" 4 5).updated_at ≤
      ((Review.mk 1 2 3 45 "c" 4 5).save 9).updated_at ∧
    (Favorite.mk 1 2 3 4 5).updated_at ≤
      ((Favorite.mk 1 2 3 4 5).save 9).updated_at ∧
    (Payment.mk 1 2 .CASH "h" .PENDING 6 "d" 3 4 5).updated_at ≤
      ((Payment.mk 1 2 .CASH "h" .PENDING 6 "d" 3 4 5).save [] 9).updated_at ∧
    (Booking.mk 1 2 3 4 5 6 [] 4 5).updated_at ≤
      ((Booking.mk 1 2 3 4 5 6 [] 4 5).save 9).updated_at :=
  saves_monotone_updated_at 9 (Rental.mk 1 2 3 .WEEKLY 100 4 5)
    (Review.mk 1 2 3 45 "c" 4 5) (Favorite.mk 1 2 3 4 5)
    (Payment.mk 1 2 .CASH "h" .PENDING 6 "d" 3 4 5) []
    (Booking.mk 1 2 3 4 5 6 [] 4 5)
    (by decide) (by decide) (by decide) (by decide) (by decide)

/-- C8: no save method touches created_at; it keeps its creation-time
value across every save. -/
theorem saves_preserve_created_at (now : Nat) (r : Rental) (v : Review) (f : Favorite)
    (p : Payment) (rnd : List Nat) (bk : Booking) :
    (r.save now).created_at = r.created_at ∧
    (v.save now).created_at = v.created_at ∧
    (f.save now).created_at = f.created_at ∧
    (p.save rnd now).created_at = p.created_at ∧
    (bk.save now).created_at = bk.created_at := by
  refine ⟨rfl, rfl, rfl, ?_, rfl⟩
  by_cases h : p.payment_hash = "" <;> simp [Payment.save, h]

/-- C9: Favorite.__str__ reads self.user, an attribute the model does not
define (the field is owner), so on every Favorite it raises
AttributeError instead of returning a string. -/
theorem favorite_str_attribute_error (f : Favorite) :
    f.__str__ = PyStr.attrError "user" := rfl

/-- C6: the migration performs exactly two operations, both AlterField,
resetting the created_at default of rental and of review to the
current-time function timezone.now, and nothing else. -/
theorem migration0010_two_default_alterations :
    migration0010_operations.length = 2 ∧
    migration0010_operations =
      [.alterField "rental" "created_at" "DateTimeField" .timezone_now,
       .alterField "review" "created_at" "DateTimeField" .timezone_now] :=
  ⟨rfl, rfl⟩

/-- C5: deleting Brand b removes exactly the Cars whose brand foreign key
references b; every other Car survives. -/
theorem brand_delete_cascades_to_cars (db : DB) (b : Nat) (c : Car) :
    c ∈ (deleteBrand db b).cars ↔ c ∈ db.cars ∧ c.brand ≠ b := by
  simp [deleteBrand, List.mem_filter, bne_iff_ne]

/-- A negative containment check certifies non-membership. -/
theorem contains_false_not_mem {l : List Nat} {a : Nat}
    (h : l.contains a = false) : ¬ a ∈ l := by
  intro hm
  have h2 : List.elem a l = true := List.elem_iff.mpr hm
  have h3 : List.elem a l = false := h
  rw [h2] at h3
  exact Bool.noConfusion h3

/-- A Rental sitting on a Car of Brand b is among the rentals the cascade
kills. -/
theorem mem_deadRentals_of_chain (db : DB) (b : Nat) (rl : Rental) (c : Car)
    (hrl : rl ∈ db.rentals) (hc : c ∈ db.cars) (hcar : rl.car = c.id)
    (hbrand : c.brand = b) : rl.id ∈ deadRentals db b := by
  have hcid : c.id ∈ deadCars db b := by
    simp only [deadCars, List.mem_map, List.mem_filter]
    exact ⟨c, ⟨hc, by simp [hbrand]⟩, rfl⟩
  simp only [deadRentals, List.mem_map, List.mem_filter]
  refine ⟨rl, ⟨hrl, ?_⟩, rfl⟩
  show List.elem rl.car (deadCars db b) = true
  rw [hcar]
  exact List.elem_iff.mpr hcid

/-- C10: deleting a Rental deletes every Review, Favorite and Booking
referencing it, and deleting a Brand transitively deletes the Rentals of
its Cars along with their Reviews, Favorites and Bookings. -/
theorem delete_cascades_transitively (db : DB) (r b : Nat) :
    (∀ v ∈ (deleteRental db r).reviews, v.rental ≠ r) ∧
    (∀ v ∈ (deleteRental db r).favorites, v.rental ≠ r) ∧
    (∀ v ∈ (deleteRental db r).bookings, v.rental ≠ r) ∧
    (∀ rl ∈ (deleteBrand db b).rentals, ∀ c ∈ db.cars, rl.car = c.id → c.brand ≠ b) ∧
    (∀ v ∈ (deleteBrand db b).reviews, ∀ rl ∈ db.rentals, v.rental = rl.id →
      ∀ c ∈ db.cars, rl.car = c.id → c.brand ≠ b) ∧
    (∀ v ∈ (deleteBrand db b).favorites, ∀ rl ∈ db.rentals, v.rental = rl.id →
      ∀ c ∈ db.cars, rl.car = c.id → c.brand ≠ b) ∧
    (∀ v ∈ (deleteBrand db b).bookings, ∀ rl ∈ db.rentals, v.rental = rl.id →
      ∀ c ∈ db.cars, rl.car = c.id → c.brand ≠ b) := by
  refine ⟨?_, ?_, ?_, ?_, ?_, ?_, ?_⟩
  · intro v hv
    have h := (List.mem_filter.mp hv).2
    simpa [bne_iff_ne] using h
  · intro v hv
    have h := (List.mem_filter.mp hv).2
    simpa [bne_iff_ne] using h
  · intro v hv
    have h := (List.mem_filter.mp hv).2
    simpa [bne_iff_ne] using h
  · intro rl hrl c hc hcar hbrand
    have h := (List.mem_filter.mp hrl).2
    simp only [Bool.not_eq_true'] at h
    have hdead : rl.car ∈ deadCars db b := by
      simp only [deadCars, List.mem_map, List.mem_filter]
      exact ⟨c, ⟨hc, by simp [hbrand]⟩, hcar.symm⟩
    exact contains_false_not_mem h hdead
  · intro v hv rl hrl hid c hc hcar hbrand
    have h := (List.mem_filter.mp hv).2
    simp only [Bool.not_eq_true'] at h
    exact contains_false_not_mem h
      (hid ▸ mem_deadRentals_of_chain db b rl c hrl hc hcar hbrand)
  · intro v hv rl hrl hid c hc hcar hbrand
    have h := (List.mem_filter.mp hv).2
    simp only [Bool.not_eq_true'] at h
    exact contains_false_not_mem h
      (hid ▸ mem_deadRentals_of_chain db b rl c hrl hc hcar hbrand)
  · intro v hv rl hrl hid c hc hcar hbrand
    have h := (List.mem_filter.mp hv).2
    simp only [Bool.not_eq_true'] at h
    exact contains_false_not_mem h
      (hid ▸ mem_deadRentals_of_chain db b rl c hrl hc hcar hbrand)

/-- A concrete six-table state: Brand 1 owns Car 10 with Rental 20 and its
Review 31 sibling chain under Brand 2 survives. -/
def dbWitness : DB :=
  { brands := [Brand.mk 1 "a" "i", Brand.mk 2 "b" "i"]
    cars := [Car.mk 10 "c" "i" 1 4 4 true true true .GASOLINE true 100 200 500 2020,
             Car.mk 11 "d" "i" 2 4 4 true true true .DIESEL false 90 180 600 2021]
    rentals := [Rental.mk 20 5 10 .WEEKLY 100 0 0, Rental.mk 21 5 11 .DAILY 50 0 0]
    reviews := [Review.mk 30 6 20 45 "x" 0 0, Review.mk 31 6 21 40 "y" 0 0]
    favorites := [Favorite.mk 40 6 20 0 0, Favorite.mk 41 6 21 0 0]
    bookings := [Booking.mk 50 6 20 7 1 2 [] 0 0, Booking.mk 51 6 21 7 1 2 [] 0 0] }

/-- Witness for C10: in the concrete state, the Review surviving the
deletion of Rental 20 does not reference it, and the Car chain of the
Review surviving the deletion of Brand 1 avoids Brand 1. -/
theorem delete_cascades_transitively_witness :
    (Review.mk 31 6 21 40 "y" 0 0).rental ≠ 20 ∧
    (Car.mk 11 "d" "i" 2 4 4 true true true .DIESEL false 90 180 600 2021).brand ≠ 1 := by
  have h := delete_cascades_transitively dbWitness 20 1
  refine ⟨h.1 (Review.mk 31 6 21 40 "y" 0 0) (by decide), ?_⟩
  exact h.2.2.2.2.1 (Review.mk 31 6 21 40 "y" 0 0) (by decide)
    (Rental.mk 21 5 11 .DAILY 50 0 0) (by decide) rfl
    (Car.mk 11 "d" "i" 2 4 4 true true true .DIESEL false 90 180 600 2021) (by decide) rfl

end EaseCar
